import Mathlib

/-!
Verification of the memory service in `src/backend/memory_api.py`
(k3ss-IDE).  The service stores per-project, timestamped JSON records in
a primary Redis stream and best-effort mirrors them into a secondary
SQLite table, serving reads and queries from the primary store with a
one-shot fallback to the secondary.

The shallow embedding below models:
  * JSON payloads as the inductive `JVal` (objects as association
    lists); the Redis/SQLite stores hold the JSON values whose
    serializations are the stored strings, with `dumpsObj` giving the
    serialized text where the code inspects it;
  * the Redis database as an association list from key to stream
    entries, and the SQLite `memory` table as a list of rows with an
    autoincrement counter;
  * the success or failure of each external store call as a boolean in a
    "world" record passed to the endpoint function, so that the
    `try`/`except` structure of the Python code becomes explicit
    branching;
  * the endpoint bodies as pure functions returning `Except` of the
    error raised by the body (the taxonomy of the raised
    `HTTPException`s) together with the updated store state.
-/

namespace MemoryApi

/-- JSON-like values as carried by the `data`/`metadata` payloads of
`memory_api.py`.  Objects are association lists of fields in insertion
order; numbers are modelled as integers. -/
inductive JVal where
  | jnull
  | jbool (b : Bool)
  | jint (n : Int)
  | jstr (s : String)
  | jarr (xs : List JVal)
  | jobj (fields : List (String × JVal))

mutual

/-- Structural equality test for `JVal` (model of Python `==` on parsed
JSON values). -/
def jvalDecEq : (a b : JVal) → Decidable (a = b)
  | .jnull, .jnull => isTrue rfl
  | .jnull, .jbool _ => isFalse nofun
  | .jnull, .jint _ => isFalse nofun
  | .jnull, .jstr _ => isFalse nofun
  | .jnull, .jarr _ => isFalse nofun
  | .jnull, .jobj _ => isFalse nofun
  | .jbool _, .jnull => isFalse nofun
  | .jbool a, .jbool b =>
      if h : a = b then isTrue (by rw [h]) else isFalse (fun e => h (by injection e))
  | .jbool _, .jint _ => isFalse nofun
  | .jbool _, .jstr _ => isFalse nofun
  | .jbool _, .jarr _ => isFalse nofun
  | .jbool _, .jobj _ => isFalse nofun
  | .jint _, .jnull => isFalse nofun
  | .jint _, .jbool _ => isFalse nofun
  | .jint a, .jint b =>
      if h : a = b then isTrue (by rw [h]) else isFalse (fun e => h (by injection e))
  | .jint _, .jstr _ => isFalse nofun
  | .jint _, .jarr _ => isFalse nofun
  | .jint _, .jobj _ => isFalse nofun
  | .jstr _, .jnull => isFalse nofun
  | .jstr _, .jbool _ => isFalse nofun
  | .jstr _, .jint _ => isFalse nofun
  | .jstr a, .jstr b =>
      if h : a = b then isTrue (by rw [h]) else isFalse (fun e => h (by injection e))
  | .jstr _, .jarr _ => isFalse nofun
  | .jstr _, .jobj _ => isFalse nofun
  | .jarr _, .jnull => isFalse nofun
  | .jarr _, .jbool _ => isFalse nofun
  | .jarr _, .jint _ => isFalse nofun
  | .jarr _, .jstr _ => isFalse nofun
  | .jarr a, .jarr b =>
      match jlistDecEq a b with
      | isTrue h => isTrue (by rw [h])
      | isFalse h => isFalse (fun e => h (by injection e))
  | .jarr _, .jobj _ => isFalse nofun
  | .jobj _, .jnull => isFalse nofun
  | .jobj _, .jbool _ => isFalse nofun
  | .jobj _, .jint _ => isFalse nofun
  | .jobj _, .jstr _ => isFalse nofun
  | .jobj _, .jarr _ => isFalse nofun
  | .jobj a, .jobj b =>
      match jfieldsDecEq a b with
      | isTrue h => isTrue (by rw [h])
      | isFalse h => isFalse (fun e => h (by injection e))

/-- Structural equality test for JSON arrays. -/
def jlistDecEq : (a b : List JVal) → Decidable (a = b)
  | [], [] => isTrue rfl
  | [], _ :: _ => isFalse nofun
  | _ :: _, [] => isFalse nofun
  | a :: as, b :: bs =>
      match jvalDecEq a b, jlistDecEq as bs with
      | isTrue h1, isTrue h2 => isTrue (by rw [h1, h2])
      | isFalse h1, _ => isFalse (fun e => h1 (by injection e))
      | _, isFalse h2 => isFalse (fun e => h2 (by injection e))

/-- Structural equality test for JSON object field lists. -/
def jfieldsDecEq : (a b : List (String × JVal)) → Decidable (a = b)
  | [], [] => isTrue rfl
  | [], _ :: _ => isFalse nofun
  | _ :: _, [] => isFalse nofun
  | (k1, v1) :: as, (k2, v2) :: bs =>
      if hk : k1 = k2 then
        match jvalDecEq v1 v2, jfieldsDecEq as bs with
        | isTrue h1, isTrue h2 => isTrue (by rw [hk, h1, h2])
        | isFalse h1, _ => isFalse (fun e => by cases e; exact h1 rfl)
        | _, isFalse h2 => isFalse (fun e => h2 (by injection e))
      else
        isFalse (fun e => by cases e; exact hk rfl)

end

instance : DecidableEq JVal := jvalDecEq

/-- Decidable equality for `Except` results. -/
def exceptDecEq {ε α : Type} [DecidableEq ε] [DecidableEq α] : DecidableEq (Except ε α)
  | .error a, .error b =>
      if h : a = b then isTrue (by rw [h]) else isFalse (fun e => by cases e; exact h rfl)
  | .error _, .ok _ => isFalse nofun
  | .ok _, .error _ => isFalse nofun
  | .ok a, .ok b =>
      if h : a = b then isTrue (by rw [h]) else isFalse (fun e => by cases e; exact h rfl)

instance {ε α : Type} [DecidableEq ε] [DecidableEq α] : DecidableEq (Except ε α) :=
  exceptDecEq

/-- JSON objects (Python `dict` payloads): association lists of fields. -/
abbrev JObj := List (String × JVal)

/-- Model of Python `str.isalnum()` on the ASCII plane: non-empty and all
characters alphanumeric. -/
def pyIsAlnum (s : String) : Bool :=
  !s.data.isEmpty && s.data.all Char.isAlphanum

/-- The project-validation test shared by all four endpoints:
`not project or not project.isalnum()` is true exactly when the project
identifier is rejected. -/
def badProject (project : String) : Bool :=
  project.data.isEmpty || !pyIsAlnum project

/-- One entry of a Redis stream: the auto-assigned stream id plus the
`data`/`metadata`/`timestamp` fields stored by `xadd`.  The store holds
the serialized strings `json.dumps data` and `json.dumps metadata`; the
model carries the JSON values, the deserialization performed on read
being the inverse of the serialization performed on write. -/
structure StreamEntry where
  eid : String
  timestamp : String
  data : JObj
  metadata : JObj
  deriving DecidableEq

/-- One row of the SQLite `memory` table.  `metadata` is `none` for a SQL
NULL (the insert stores NULL when the effective metadata mapping is
empty/falsy). -/
structure SqliteRow where
  rid : Nat
  project : String
  timestamp : String
  data : JObj
  metadata : Option JObj
  deriving DecidableEq

/-- Combined state of the two stores: the Redis database as an
association list from key to stream entries, and the SQLite `memory`
table with its autoincrement counter. -/
structure Sys where
  redis : List (String × List StreamEntry)
  sqliteRows : List SqliteRow
  sqliteNextId : Nat
  deriving DecidableEq

/-- Entries of a Redis stream key; `[]` when the key is absent (a stream
key exists iff it holds at least one entry). -/
def redisLookup (redis : List (String × List StreamEntry)) (key : String) : List StreamEntry :=
  (List.lookup key redis).getD []

/-- Replace the value of a Redis key. -/
def redisSet (redis : List (String × List StreamEntry)) (key : String)
    (es : List StreamEntry) : List (String × List StreamEntry) :=
  (key, es) :: redis.filter (fun kv => kv.1 != key)

/-- Model of Redis auto-assigned stream ids: Redis assigns ids of the
form ms-seq increasing along the stream; the model derives a fresh id
from the current number of entries. -/
def streamNextId (es : List StreamEntry) : String :=
  toString es.length ++ "-0"

/-- Which external calls of a `write_memory` invocation succeed:
`redisOk` for the `xadd`, `sqliteOk` for the backup connection/insert. -/
structure WriteWorld where
  redisOk : Bool
  sqliteOk : Bool
  deriving DecidableEq

/-- Errors raised by the body of `write_memory`: the 400 "Invalid
project ID" and the 500 "Memory storage error" raised from the
`except redis.RedisError` handler. -/
inductive WriteErr where
  | invalidProject
  | primaryStoreError
  deriving DecidableEq

/-- The success payload of `write_memory`: status "success" plus the
primary-assigned id, the project and the shared timestamp. -/
structure WriteResp where
  id : String
  project : String
  timestamp : String
  deriving DecidableEq

/-- Result of a `write_memory` call: the response, the final store
state, and how many times the secondary (SQLite) insert was attempted. -/
structure WriteOut where
  result : Except WriteErr WriteResp
  sys : Sys
  sqliteAttempts : Nat
  deriving DecidableEq

/-- `write_memory` (memory_api.py lines 174-245): validate the project,
compute one timestamp (passed here as `ts`), `xadd` the serialized
payload to the stream `project:{...}`, then attempt one SQLite insert
whose failure is caught and swallowed.  A Redis failure aborts with the
storage error; the SQLite insert stores NULL metadata when the effective
metadata mapping (`request.metadata or` the empty mapping) is empty. -/
def write_memory (w : WriteWorld) (st : Sys) (project : String) (data : JObj)
    (metadata : Option JObj) (ts : String) : WriteOut :=
  if badProject project then
    { result := .error .invalidProject, sys := st, sqliteAttempts := 0 }
  else
    let md := match metadata with
      | some m => m
      | none => []
    if !w.redisOk then
      { result := .error .primaryStoreError, sys := st, sqliteAttempts := 0 }
    else
      let key := "project:" ++ project
      let es := redisLookup st.redis key
      let eid := streamNextId es
      let entry : StreamEntry := { eid := eid, timestamp := ts, data := data, metadata := md }
      let st1 : Sys := { st with redis := redisSet st.redis key (es ++ [entry]) }
      let st2 : Sys :=
        if w.sqliteOk then
          { st1 with
            sqliteRows := st1.sqliteRows ++
              [{ rid := st1.sqliteNextId, project := project, timestamp := ts,
                 data := data,
                 metadata := if md.isEmpty then none else some md }],
            sqliteNextId := st1.sqliteNextId + 1 }
        else st1
      { result := .ok { id := eid, project := project, timestamp := ts },
        sys := st2, sqliteAttempts := 1 }

/-- Which external calls of a `purge_memory` invocation succeed. -/
structure PurgeWorld where
  redisDelOk : Bool
  sqliteDelOk : Bool
  deriving DecidableEq

/-- Errors raised by the body of `purge_memory`: the 400 "Invalid
project ID", the 400 "Confirmation required", the 500 "Memory purge
error" (from the `except redis.RedisError` handler) and the 500
"Internal server error" (generic handler, reached when the SQLite
deletion raises). -/
inductive PurgeErr where
  | invalidProject
  | confirmationRequired
  | purgeError
  | internalError
  deriving DecidableEq

/-- The success payload of `purge_memory`: status "success" plus the
per-store outcomes. -/
structure PurgeResp where
  project : String
  redis_deleted : Bool
  sqlite_deleted : Nat
  timestamp : String
  deriving DecidableEq

/-- `purge_memory` (memory_api.py lines 613-671): validate the project,
require `confirm`, delete the Redis stream key (boolean outcome), then
independently delete the SQLite rows of the project (row-count outcome
via `changes()`).  A Redis failure surfaces the purge error with nothing
deleted; a SQLite failure after a successful Redis deletion leaves the
Redis deletion in place and surfaces the generic internal error. -/
def purge_memory (w : PurgeWorld) (st : Sys) (project : String) (confirm : Bool)
    (ts : String) : Except PurgeErr PurgeResp × Sys :=
  if badProject project then (.error .invalidProject, st)
  else if !confirm then (.error .confirmationRequired, st)
  else if !w.redisDelOk then (.error .purgeError, st)
  else
    let key := "project:" ++ project
    let existed := (List.lookup key st.redis).isSome
    let st1 : Sys := { st with redis := st.redis.filter (fun kv => kv.1 != key) }
    if !w.sqliteDelOk then (.error .internalError, st1)
    else
      let deleted := (st1.sqliteRows.filter (fun r => r.project == project)).length
      let st2 : Sys := { st1 with sqliteRows := st1.sqliteRows.filter (fun r => r.project != project) }
      (.ok { project := project, redis_deleted := existed, sqlite_deleted := deleted,
             timestamp := ts }, st2)

/-- Lexicographic order on character lists by code point (binary
collation: the order SQLite uses to compare TEXT values and Redis uses
on its lexically sortable stream ids). -/
def lexLe : List Char → List Char → Bool
  | [], _ => true
  | _ :: _, [] => false
  | a :: as, b :: bs =>
      if a.toNat < b.toNat then true
      else if b.toNat < a.toNat then false
      else lexLe as bs

/-- String comparison used by the stores (binary collation). -/
def strLe (a b : String) : Bool := lexLe a.data b.data

/-- Python truthiness of an `Optional[str]` parameter: `None` and the
empty string are falsy, so both leave the corresponding SQL clause or
range bound unset. -/
def pyOptStr : Option String → Option String
  | none => none
  | some s => if s.data.isEmpty then none else some s

/-- One formatted response item, as built by the read/query result
loops: `id`, the `project` of the request, `timestamp`, the deserialized
`data`, and the deserialized `metadata` (`none` where the stored column
or field is NULL/absent/empty). -/
structure MemItem where
  id : String
  project : String
  timestamp : String
  data : JObj
  metadata : Option JObj
  deriving DecidableEq

/-- The response envelope of `read_memory`. -/
structure Page where
  items : List MemItem
  total : Nat
  limit : Nat
  offset : Nat
  deriving DecidableEq

/-- Formatting of a Redis stream entry into a response item (lines
361-368 and 520-527).  The stored `metadata` field is the serialized
string of `e.metadata`, which for entries written by this service is
always present and non-empty (the empty mapping serializes to a
non-empty string), so the truthiness test on the stored field passes
and the item carries the deserialized mapping. -/
def primaryItem (project : String) (e : StreamEntry) : MemItem :=
  { id := e.eid, project := project, timestamp := e.timestamp, data := e.data,
    metadata := some e.metadata }

/-- Formatting of a SQLite row into a response item (lines 318-327,
418-425 and 588-596): the row id rendered as a string, the requested
`project`, and `metadata := none` when the column is NULL. -/
def rowItem (project : String) (r : SqliteRow) : MemItem :=
  { id := toString r.rid, project := project, timestamp := r.timestamp, data := r.data,
    metadata := r.metadata }

/-- Descending-timestamp order on SQLite rows (`ORDER BY timestamp
DESC`): `a` may come before `b` iff `b.timestamp <= a.timestamp`. -/
def rowRel (a b : SqliteRow) : Prop := strLe b.timestamp a.timestamp = true

instance : DecidableRel rowRel := fun _ _ => inferInstanceAs (Decidable (_ = true))

/-- Model of `ORDER BY timestamp DESC` on the `memory` table. -/
def sqliteOrderDesc (rows : List SqliteRow) : List SqliteRow :=
  List.insertionSort rowRel rows

/-- The WHERE clause built by the read paths (lines 286-295 and
384-393): rows of the project, plus `timestamp >= start_time` and
`timestamp <= end_time` clauses added only when the corresponding
parameter is truthy. -/
def sqliteReadFilter (rows : List SqliteRow) (project : String)
    (startTime endTime : Option String) : List SqliteRow :=
  rows.filter (fun r =>
    r.project == project
    && (match pyOptStr startTime with | none => true | some a => strLe a r.timestamp)
    && (match pyOptStr endTime with | none => true | some b => strLe r.timestamp b))

/-- The read-path SELECT (lines 286-300 and 384-398): filter, order by
timestamp descending, then `LIMIT ? OFFSET ?` at the store level. -/
def sqliteReadSelect (rows : List SqliteRow) (project : String)
    (startTime endTime : Option String) (limit offset : Nat) : List SqliteRow :=
  ((sqliteOrderDesc (sqliteReadFilter rows project startTime endTime)).drop offset).take limit

/-- The read-path COUNT (lines 302-316 and 400-414): the exact number of
rows matching the same filters, ignoring limit/offset. -/
def sqliteReadCount (rows : List SqliteRow) (project : String)
    (startTime endTime : Option String) : Nat :=
  (sqliteReadFilter rows project startTime endTime).length

/-- The page assembled by either SQLite read branch. -/
def sqlitePage (rows : List SqliteRow) (project : String)
    (startTime endTime : Option String) (limit offset : Nat) : Page :=
  { items := (sqliteReadSelect rows project startTime endTime limit offset).map (rowItem project),
    total := sqliteReadCount rows project startTime endTime,
    limit := limit, offset := offset }

/-- Model of the range scan of the primary store, `xrange(stream_key, start,
end)`: the entries whose stream id lies within the given bounds, with
"-" and "+" denoting the open ends (spec section 6: primary ids are
lexically sortable stream identifiers). -/
def xrange (es : List StreamEntry) (start stop : String) : List StreamEntry :=
  es.filter (fun e =>
    (start == "-" || strLe start e.eid) && (stop == "+" || strLe e.eid stop))

/-- Which external calls of a `read_memory` invocation succeed:
`existsOk` for the `exists` check, `rangeOk` for `xlen`/`xrange`,
`sqliteOk` for the SQLite connection and queries. -/
structure ReadWorld where
  existsOk : Bool
  rangeOk : Bool
  sqliteOk : Bool
  deriving DecidableEq

/-- Errors raised by the body of `read_memory`: the 400 "Invalid project
ID" and the 500 "Memory retrieval error" raised when the SQLite
fallback of the `except redis.RedisError` handler itself fails. -/
inductive ReadErr where
  | invalidProject
  | readError
  deriving DecidableEq

/-- `read_memory` (memory_api.py lines 247-446): validate the project;
if the stream key does not exist, serve the page from SQLite, its own
`try` returning an empty page on any failure; otherwise `total` is the
unfiltered stream length (`xlen`), the entries are a single `xrange`
over the given bounds ("-"/"+" when a bound is falsy) sliced in memory
by `[offset : offset+limit]`.  A `redis.RedisError` anywhere in the
Redis path triggers the one-shot SQLite fallback, whose own failure
surfaces the retrieval error. -/
def read_memory (w : ReadWorld) (st : Sys) (project : String) (limit offset : Nat)
    (startTime endTime : Option String) : Except ReadErr Page :=
  if badProject project then .error .invalidProject
  else
    let key := "project:" ++ project
    if !w.existsOk then
      if w.sqliteOk then .ok (sqlitePage st.sqliteRows project startTime endTime limit offset)
      else .error .readError
    else if (redisLookup st.redis key).isEmpty then
      if w.sqliteOk then .ok (sqlitePage st.sqliteRows project startTime endTime limit offset)
      else .ok { items := [], total := 0, limit := limit, offset := offset }
    else if !w.rangeOk then
      if w.sqliteOk then .ok (sqlitePage st.sqliteRows project startTime endTime limit offset)
      else .error .readError
    else
      let es := redisLookup st.redis key
      let total := es.length
      let start := match pyOptStr startTime with | none => "-" | some s => s
      let stop := match pyOptStr endTime with | none => "+" | some s => s
      let entries := ((xrange es start stop).drop offset).take limit
      .ok { items := entries.map (primaryItem project), total := total,
            limit := limit, offset := offset }

/-- Escaping of one character inside a JSON string, as `json.dumps`
performs it on the ASCII plane (quote, backslash and the common control
characters; other characters pass through unchanged in this model). -/
def escapeChar (c : Char) : String :=
  if c = '"' then "\\\""
  else if c = '\\' then "\\\\"
  else if c = '\n' then "\\n"
  else if c = '\t' then "\\t"
  else if c = '\r' then "\\r"
  else String.singleton c

/-- Escaping of a JSON string body. -/
def escapeStr (s : String) : String :=
  s.data.foldl (fun acc c => acc ++ escapeChar c) ""

mutual

/-- Model of Python `json.dumps` with its default separators: items are
joined by comma-space and keys are followed by colon-space; `True`,
`False` and `None` render as the JSON literals; object fields keep
insertion order. -/
def dumpsJ : JVal → String
  | .jnull => "null"
  | .jbool true => "true"
  | .jbool false => "false"
  | .jint n => toString n
  | .jstr s => "\"" ++ escapeStr s ++ "\""
  | .jarr xs => "[" ++ dumpsList xs ++ "]"
  | .jobj fs => "\x7b" ++ dumpsFields fs ++ "\x7d"

/-- Serialization of a JSON array body. -/
def dumpsList : List JVal → String
  | [] => ""
  | [x] => dumpsJ x
  | x :: y :: t => dumpsJ x ++ ", " ++ dumpsList (y :: t)

/-- Serialization of a JSON object body. -/
def dumpsFields : List (String × JVal) → String
  | [] => ""
  | [(k, v)] => "\"" ++ escapeStr k ++ "\": " ++ dumpsJ v
  | (k, v) :: y :: t => "\"" ++ escapeStr k ++ "\": " ++ dumpsJ v ++ ", " ++ dumpsFields (y :: t)

end

/-- Serialization of a payload mapping (`json.dumps(data)`). -/
def dumpsObj (fs : JObj) : String := dumpsJ (.jobj fs)

/-- ASCII lowercasing of one character (model of `str.lower`). -/
def lowerChar (c : Char) : Char :=
  if 65 ≤ c.toNat && c.toNat ≤ 90 then Char.ofNat (c.toNat + 32) else c

/-- ASCII lowercasing of a string (model of `str.lower`). -/
def lowerStr (s : String) : String := String.mk (s.data.map lowerChar)

/-- Whether `needle` is a prefix of `hay`. -/
def pfxOf : List Char → List Char → Bool
  | [], _ => true
  | _ :: _, [] => false
  | a :: as, b :: bs => a == b && pfxOf as bs

/-- Whether `needle` occurs contiguously inside `hay`. -/
def hasSubList (needle : List Char) : List Char → Bool
  | [] => needle.isEmpty
  | c :: t => pfxOf needle (c :: t) || hasSubList needle t

/-- Python substring containment `needle in hay`. -/
def strIn (needle hay : String) : Bool := hasSubList needle.data hay.data

/-- Python truthiness of the optional `filters` mapping: `None` and the
empty mapping are falsy, so neither activates the filter loop. -/
def pyTruthyFilters : Option JObj → Bool
  | none => false
  | some fs => !fs.isEmpty

/-- One iteration of the filter loop of `query_memory` (lines 494-507):
if the key is a top-level field of `data`, its value must equal the
filter value; otherwise, if `metadata` is truthy and has the key as a
top-level field, that value must equal the filter value; otherwise the
record is rejected. -/
def filterOk (data metadata : JObj) (kv : String × JVal) : Bool :=
  match List.lookup kv.1 data with
  | some v => decide (v = kv.2)
  | none =>
      match (if !metadata.isEmpty then List.lookup kv.1 metadata else none) with
      | some v => decide (v = kv.2)
      | none => false

/-- The per-record predicate of the primary query path (lines 482-512):
the lowercased query must occur in the lowercased serialization of
`data` or of `metadata`, and, when the `filters` mapping is truthy,
every filter entry must pass `filterOk`. -/
def queryEntryMatch (qLower : String) (filters : Option JObj) (e : StreamEntry) : Bool :=
  let dataStr := lowerStr (dumpsObj e.data)
  let metaStr := lowerStr (dumpsObj e.metadata)
  if strIn qLower dataStr || strIn qLower metaStr then
    if pyTruthyFilters filters then (filters.getD []).all (filterOk e.data e.metadata)
    else true
  else false

mutual

/-- Model of Python `str()` on a parsed JSON value, used when the SQLite
fallback of `query_memory` interpolates a filter value into its LIKE
pattern: scalars render bare, containers render via `repr`. -/
def pyStr : JVal → String
  | .jnull => "None"
  | .jbool true => "True"
  | .jbool false => "False"
  | .jint n => toString n
  | .jstr s => s
  | .jarr xs => "[" ++ pyReprList xs ++ "]"
  | .jobj fs => "\x7b" ++ pyReprFields fs ++ "\x7d"

/-- Model of Python `repr` on a parsed JSON value (ASCII strings in
single quotes). -/
def pyRepr : JVal → String
  | .jnull => "None"
  | .jbool true => "True"
  | .jbool false => "False"
  | .jint n => toString n
  | .jstr s => String.singleton (Char.ofNat 39) ++ s ++ String.singleton (Char.ofNat 39)
  | .jarr xs => "[" ++ pyReprList xs ++ "]"
  | .jobj fs => "\x7b" ++ pyReprFields fs ++ "\x7d"

/-- `repr` of a Python list body. -/
def pyReprList : List JVal → String
  | [] => ""
  | [x] => pyRepr x
  | x :: y :: t => pyRepr x ++ ", " ++ pyReprList (y :: t)

/-- `repr` of a Python dict body. -/
def pyReprFields : List (String × JVal) → String
  | [] => ""
  | [(k, v)] =>
      String.singleton (Char.ofNat 39) ++ k ++ String.singleton (Char.ofNat 39) ++ ": " ++ pyRepr v
  | (k, v) :: y :: t =>
      String.singleton (Char.ofNat 39) ++ k ++ String.singleton (Char.ofNat 39) ++ ": " ++ pyRepr v
        ++ ", " ++ pyReprFields (y :: t)

end

/-- SQLite LIKE with percent wildcards around the needle, applied to a nullable TEXT column:
NULL never matches, and LIKE is case-insensitive on the ASCII plane. -/
def sqlLikeSub (needle : String) (col : Option String) : Bool :=
  match col with
  | none => false
  | some s => strIn (lowerStr needle) (lowerStr s)

/-- The inner needle of the fallback filter pattern
(percent, quote, key, quote, colon, quote, value, quote, percent) built at lines 559 and 580. -/
def filterNeedle (kv : String × JVal) : String :=
  "\"" ++ kv.1 ++ "\":\"" ++ pyStr kv.2 ++ "\""

/-- The WHERE predicate of the SQLite fallback of `query_memory` (lines
547-581): rows of the project whose serialized `data` or `metadata`
column contains the query string, and, for each filter entry, contains
the quoted key/value needle. -/
def sqliteQueryMatch (project q : String) (filters : Option JObj) (r : SqliteRow) : Bool :=
  r.project == project
  && (sqlLikeSub q (some (dumpsObj r.data)) || sqlLikeSub q (r.metadata.map dumpsObj))
  && ((filters.getD []).all (fun kv =>
        sqlLikeSub (filterNeedle kv) (some (dumpsObj r.data))
          || sqlLikeSub (filterNeedle kv) (r.metadata.map dumpsObj)))

/-- Which external calls of a `query_memory` invocation succeed. -/
structure QueryWorld where
  redisOk : Bool
  sqliteOk : Bool
  deriving DecidableEq

/-- Errors raised by the body of `query_memory`: the 400 "Invalid
project ID" and the 500 "Memory query error" raised by the outer
handler when the SQLite fallback fails. -/
inductive QueryErr where
  | invalidProject
  | queryError
  deriving DecidableEq

/-- The response envelope of `query_memory` (echoes the query string). -/
structure QPage where
  items : List MemItem
  total : Nat
  limit : Nat
  offset : Nat
  query : String
  deriving DecidableEq

/-- `query_memory` (memory_api.py lines 448-611): validate the project;
on the primary path, load the whole stream with `xrange(key, "-", "+")`,
keep the records passing `queryEntryMatch`, set `total` to the full
count of matches, and slice `[offset : offset+limit]` only afterwards.
On a `redis.RedisError` the SQLite fallback applies the LIKE-based
`sqliteQueryMatch` with store-level LIMIT/OFFSET in descending timestamp
order and an exact COUNT over the same predicates. -/
def query_memory (w : QueryWorld) (st : Sys) (project : String) (q : String)
    (limit offset : Nat) (filters : Option JObj) : Except QueryErr QPage :=
  if badProject project then .error .invalidProject
  else
    let key := "project:" ++ project
    if w.redisOk then
      let es := xrange (redisLookup st.redis key) "-" "+"
      let matched := es.filter (queryEntryMatch (lowerStr q) filters)
      let pageEntries := (matched.drop offset).take limit
      .ok { items := pageEntries.map (primaryItem project), total := matched.length,
            limit := limit, offset := offset, query := q }
    else if w.sqliteOk then
      let flt := st.sqliteRows.filter (sqliteQueryMatch project q filters)
      let pageRows := ((sqliteOrderDesc flt).drop offset).take limit
      .ok { items := pageRows.map (rowItem project), total := flt.length,
            limit := limit, offset := offset, query := q }
    else .error .queryError

theorem lexLe_cons (x y : Char) (xs ys : List Char) :
    lexLe (x :: xs) (y :: ys) = true ↔
      x.toNat < y.toNat ∨ (x.toNat = y.toNat ∧ lexLe xs ys = true) := by
  simp only [lexLe]
  by_cases h1 : x.toNat < y.toNat
  · simp [h1]
  · by_cases h2 : y.toNat < x.toNat
    · simp only [if_neg h1, if_pos h2]
      constructor
      · intro h; exact absurd h (by simp)
      · intro h; rcases h with h | ⟨h, _⟩ <;> omega
    · have he : x.toNat = y.toNat := by omega
      simp [h1, h2, he]

theorem lexLe_total (a b : List Char) : lexLe a b = true ∨ lexLe b a = true := by
  induction a generalizing b with
  | nil => exact Or.inl rfl
  | cons x xs ih =>
      cases b with
      | nil => exact Or.inr rfl
      | cons y ys =>
          rw [lexLe_cons, lexLe_cons]
          rcases Nat.lt_trichotomy x.toNat y.toNat with h | h | h
          · exact Or.inl (Or.inl h)
          · rcases ih ys with h2 | h2
            · exact Or.inl (Or.inr ⟨h, h2⟩)
            · exact Or.inr (Or.inr ⟨h.symm, h2⟩)
          · exact Or.inr (Or.inl h)

theorem lexLe_trans : ∀ a b c : List Char,
    lexLe a b = true → lexLe b c = true → lexLe a c = true
  | [], _, _, _, _ => rfl
  | _ :: _, [], _, h1, _ => by simp [lexLe] at h1
  | _ :: _, _ :: _, [], _, h2 => by simp [lexLe] at h2
  | a :: as, b :: bs, c :: cs, h1, h2 => by
      rw [lexLe_cons] at h1 h2 ⊢
      rcases h1 with h1 | ⟨h1e, h1r⟩ <;> rcases h2 with h2 | ⟨h2e, h2r⟩
      · exact Or.inl (by omega)
      · exact Or.inl (by omega)
      · exact Or.inl (by omega)
      · exact Or.inr ⟨by omega, lexLe_trans as bs cs h1r h2r⟩

instance : IsTotal SqliteRow rowRel :=
  ⟨fun a b => lexLe_total b.timestamp.data a.timestamp.data⟩

instance : IsTrans SqliteRow rowRel :=
  ⟨fun _ _ _ h1 h2 => lexLe_trans _ _ _ h2 h1⟩

theorem sqliteOrderDesc_pairwise (rows : List SqliteRow) :
    (sqliteOrderDesc rows).Pairwise rowRel :=
  List.sorted_insertionSort rowRel rows

theorem sqliteOrderDesc_perm (rows : List SqliteRow) :
    (sqliteOrderDesc rows).Perm rows :=
  List.perm_insertionSort rowRel rows

theorem redisLookup_redisSet (r : List (String × List StreamEntry)) (k : String)
    (es : List StreamEntry) : redisLookup (redisSet r k es) k = es := by
  simp [redisLookup, redisSet, List.lookup]

theorem lookup_erase_self {α : Type} (l : List (String × α)) (k : String) :
    List.lookup k (l.filter (fun kv => kv.1 != k)) = none := by
  induction l with
  | nil => rfl
  | cons hd t ih =>
      obtain ⟨k1, v1⟩ := hd
      by_cases h : k1 = k
      · simpa [List.filter_cons, h] using ih
      · have hk : (k == k1) = false := by simp [Ne.symm h]
        have hb : ((fun kv => kv.1 != k) ((k1, v1) : String × α)) = true := by simp [bne, h]
        rw [List.filter_cons, if_pos hb]
        simp only [List.lookup, hk]
        exact ih

theorem xrange_full (es : List StreamEntry) : xrange es "-" "+" = es :=
  List.filter_eq_self.mpr (fun _ _ => rfl)

theorem filter_project_erase (rows : List SqliteRow) (p : String) :
    (rows.filter (fun r => r.project != p)).filter (fun r => r.project == p) = [] := by
  induction rows with
  | nil => rfl
  | cons r t ih =>
      by_cases h : r.project = p
      · simp [List.filter_cons, bne, h, ih]
      · simp [List.filter_cons, bne, h, ih]

/-- Concrete system used by the witnesses: one stream with one entry for
project `p1`, and two SQLite rows (one per project). -/
def sysDemo : Sys :=
  { redis := [("project:p1", [⟨"0-0", "T1", [("k", .jstr "v1")], []⟩])],
    sqliteRows := [⟨1, "p1", "T1", [("k", .jstr "v1")], none⟩,
                   ⟨2, "p2", "T2", [], some [("m", .jint 1)]⟩],
    sqliteNextId := 3 }

/-- C1: for every valid project identifier and every payload, if the
primary `xadd` succeeds then `write_memory` returns success with the
primary-assigned id and the shared timestamp, the returned value being
the same whether the secondary SQLite insert succeeds or raises, and
the secondary insert is attempted at most once per call. -/
theorem claim_C1_write_secondary_isolated
    (w : WriteWorld) (st : Sys) (p : String) (data : JObj) (md : Option JObj) (ts : String)
    (hp : badProject p = false) (hr : w.redisOk = true) :
    (write_memory w st p data md ts).result =
        .ok { id := streamNextId (redisLookup st.redis ("project:" ++ p)),
              project := p, timestamp := ts }
      ∧ (write_memory w st p data md ts).result
          = (write_memory { redisOk := true, sqliteOk := !w.sqliteOk } st p data md ts).result
      ∧ (write_memory w st p data md ts).sqliteAttempts ≤ 1 := by
  refine ⟨?_, ?_, ?_⟩ <;> simp [write_memory, hp, hr]

/-- Witness for C1 at a concrete input whose secondary insert fails. -/
theorem claim_C1_witness :
    badProject "p1" = false ∧ (WriteWorld.mk true false).redisOk = true ∧
    ((write_memory ⟨true, false⟩ ⟨[], [], 1⟩ "p1" [] none "T1").result =
        .ok { id := streamNextId (redisLookup ([] : List (String × List StreamEntry))
                                    ("project:" ++ "p1")),
              project := "p1", timestamp := "T1" }
      ∧ (write_memory ⟨true, false⟩ ⟨[], [], 1⟩ "p1" [] none "T1").result
          = (write_memory { redisOk := true, sqliteOk := !(false : Bool) }
              ⟨[], [], 1⟩ "p1" [] none "T1").result
      ∧ (write_memory ⟨true, false⟩ ⟨[], [], 1⟩ "p1" [] none "T1").sqliteAttempts ≤ 1) :=
  ⟨by decide, rfl,
    claim_C1_write_secondary_isolated ⟨true, false⟩ ⟨[], [], 1⟩ "p1" [] none "T1" (by decide) rfl⟩

/-- C6: the failure policy of `read_memory` is asymmetric.  When the
stream key is absent and the SQLite branch raises, the call returns an
empty page; when the key exists, the Redis range operations raise and
the one-shot SQLite fallback also raises, the call surfaces the
retrieval error. -/
theorem claim_C6_read_failure_asymmetry (st1 st2 : Sys) (p : String) (limit offset : Nat)
    (s t : Option String) (hp : badProject p = false)
    (hk1 : redisLookup st1.redis ("project:" ++ p) = [])
    (hk2 : redisLookup st2.redis ("project:" ++ p) ≠ []) :
    read_memory ⟨true, true, false⟩ st1 p limit offset s t
        = .ok { items := [], total := 0, limit := limit, offset := offset }
      ∧ read_memory ⟨true, false, false⟩ st2 p limit offset s t = .error .readError := by
  constructor
  · simp [read_memory, hp, hk1]
  · have hne : (redisLookup st2.redis ("project:" ++ p)).isEmpty = false := by
      cases hcase : redisLookup st2.redis ("project:" ++ p) with
      | nil => exact absurd hcase hk2
      | cons a l => rfl
    simp [read_memory, hp, hne]

/-- Witness for C6: an empty system for the key-absent half and a
one-entry stream for the fallback-failure half. -/
theorem claim_C6_witness :
    badProject "p1" = false ∧
    redisLookup ([] : List (String × List StreamEntry)) ("project:" ++ "p1") = [] ∧
    redisLookup [("project:p1", [⟨"0-0", "T1", [], []⟩])] ("project:" ++ "p1") ≠ [] ∧
    (read_memory ⟨true, true, false⟩ ⟨[], [], 1⟩ "p1" 10 0 none none
        = .ok { items := [], total := 0, limit := 10, offset := 0 }
      ∧ read_memory ⟨true, false, false⟩
          ⟨[("project:p1", [⟨"0-0", "T1", [], []⟩])], [], 1⟩ "p1" 10 0 none none
          = .error .readError) :=
  ⟨by decide, by decide, by decide,
    claim_C6_read_failure_asymmetry ⟨[], [], 1⟩
      ⟨[("project:p1", [⟨"0-0", "T1", [], []⟩])], [], 1⟩ "p1" 10 0 none none
      (by decide) (by decide) (by decide)⟩

/-- C7: `purge_memory` with a valid project and `confirm = true` deletes
the primary stream key and independently deletes the secondary rows of
the project, reporting the outcome of each store separately (a boolean for
the primary, a row count for the secondary); the deletions are not
coordinated, so a primary failure leaves everything in place while a
secondary failure after a successful primary deletion leaves the
primary deletion in effect. -/
theorem claim_C7_purge_independent (st : Sys) (p ts : String) (hp : badProject p = false) :
    ((purge_memory ⟨true, true⟩ st p true ts).1 =
        .ok { project := p,
              redis_deleted := (List.lookup ("project:" ++ p) st.redis).isSome,
              sqlite_deleted := (st.sqliteRows.filter (fun r => r.project == p)).length,
              timestamp := ts }
      ∧ List.lookup ("project:" ++ p) (purge_memory ⟨true, true⟩ st p true ts).2.redis = none
      ∧ (purge_memory ⟨true, true⟩ st p true ts).2.sqliteRows.filter
          (fun r => r.project == p) = [])
    ∧ (∀ b : Bool, purge_memory ⟨false, b⟩ st p true ts = (.error .purgeError, st))
    ∧ ((purge_memory ⟨true, false⟩ st p true ts).1 = .error .internalError
      ∧ List.lookup ("project:" ++ p) (purge_memory ⟨true, false⟩ st p true ts).2.redis = none
      ∧ (purge_memory ⟨true, false⟩ st p true ts).2.sqliteRows = st.sqliteRows) := by
  refine ⟨⟨?_, ?_, ?_⟩, ?_, ?_, ?_, ?_⟩
  · simp [purge_memory, hp]
  · simp [purge_memory, hp, lookup_erase_self]
  · simp only [purge_memory, hp]
    simp [filter_project_erase]
  · intro b; simp [purge_memory, hp]
  · simp [purge_memory, hp]
  · simp [purge_memory, hp, lookup_erase_self]
  · simp [purge_memory, hp]

/-- Witness for C7 at a concrete two-row system. -/
theorem claim_C7_witness :
    badProject "p1" = false ∧
    ((purge_memory ⟨true, true⟩ sysDemo "p1" true "T9").1 =
        .ok { project := "p1",
              redis_deleted := (List.lookup ("project:" ++ "p1") sysDemo.redis).isSome,
              sqlite_deleted := (sysDemo.sqliteRows.filter (fun r => r.project == "p1")).length,
              timestamp := "T9" }
      ∧ List.lookup ("project:" ++ "p1") (purge_memory ⟨true, true⟩ sysDemo "p1" true "T9").2.redis
          = none
      ∧ (purge_memory ⟨true, true⟩ sysDemo "p1" true "T9").2.sqliteRows.filter
          (fun r => r.project == "p1") = [])
    ∧ (∀ b : Bool, purge_memory ⟨false, b⟩ sysDemo "p1" true "T9" = (.error .purgeError, sysDemo))
    ∧ ((purge_memory ⟨true, false⟩ sysDemo "p1" true "T9").1 = .error .internalError
      ∧ List.lookup ("project:" ++ "p1")
          (purge_memory ⟨true, false⟩ sysDemo "p1" true "T9").2.redis = none
      ∧ (purge_memory ⟨true, false⟩ sysDemo "p1" true "T9").2.sqliteRows = sysDemo.sqliteRows) :=
  ⟨by decide, claim_C7_purge_independent sysDemo "p1" "T9" (by decide)⟩

/-- C8: for every valid project, `purge_memory` with `confirm = false`
fails with the confirmation-required error and leaves both stores
untouched. -/
theorem claim_C8_purge_confirmation (w : PurgeWorld) (st : Sys) (p ts : String)
    (hp : badProject p = false) :
    purge_memory w st p false ts = (.error .confirmationRequired, st) := by
  simp [purge_memory, hp]

/-- Witness for C8 at a concrete populated system. -/
theorem claim_C8_witness :
    badProject "p1" = false ∧
    purge_memory ⟨true, true⟩ sysDemo "p1" false "T9"
      = (.error .confirmationRequired, sysDemo) :=
  ⟨by decide, claim_C8_purge_confirmation ⟨true, true⟩ sysDemo "p1" "T9" (by decide)⟩

/-- C10: in `purge_memory` the project validation precedes the
confirmation check: an invalid project identifier fails with the
invalid-project error even when `confirm = false`, and the
confirmation-required error can only arise for a valid project. -/
theorem claim_C10_purge_validation_order :
    (∀ (w : PurgeWorld) (st : Sys) (p : String) (confirm : Bool) (ts : String),
        badProject p = true → purge_memory w st p confirm ts = (.error .invalidProject, st))
    ∧ (∀ (w : PurgeWorld) (st : Sys) (p : String) (confirm : Bool) (ts : String),
        (purge_memory w st p confirm ts).1 = .error .confirmationRequired →
          badProject p = false) := by
  constructor
  · intro w st p c ts hp
    simp [purge_memory, hp]
  · intro w st p c ts h
    cases hb : badProject p
    · rfl
    · simp [purge_memory, hb] at h

/-- Witness for C10 on the empty (hence invalid) project identifier with
`confirm = false`. -/
theorem claim_C10_witness :
    badProject "" = true ∧
    purge_memory ⟨true, true⟩ sysDemo "" false "T9" = (.error .invalidProject, sysDemo) :=
  ⟨by decide,
    claim_C10_purge_validation_order.1 ⟨true, true⟩ sysDemo "" false "T9" (by decide)⟩

/-- C3: in the primary branch of `read_memory` (key exists, primary
healthy), the returned `total` equals the full unfiltered length of the
stream of the project whatever the time bounds are, while `items` is the
range-scan result sliced in memory by `[offset : offset+limit]`; hence
for a narrow window `total` can differ from the number of returned
items, as the embedded concrete instance shows. -/
theorem claim_C3_primary_total_unfiltered (st : Sys) (p : String) (limit offset : Nat)
    (s t : Option String) (hp : badProject p = false)
    (hk : redisLookup st.redis ("project:" ++ p) ≠ []) :
    read_memory ⟨true, true, true⟩ st p limit offset s t =
      .ok { items := (((xrange (redisLookup st.redis ("project:" ++ p))
                          (match pyOptStr s with | none => "-" | some a => a)
                          (match pyOptStr t with | none => "+" | some b => b)).drop
                        offset).take limit).map (primaryItem p),
            total := (redisLookup st.redis ("project:" ++ p)).length,
            limit := limit, offset := offset }
      ∧ ∃ pg, read_memory ⟨true, true, true⟩
            ⟨[("project:p1", [⟨"0-0", "T1", [], []⟩])], [], 1⟩ "p1" 10 0 (some "1") (some "2")
            = .ok pg ∧ pg.total ≠ pg.items.length := by
  constructor
  · have hne : (redisLookup st.redis ("project:" ++ p)).isEmpty = false := by
      cases hcase : redisLookup st.redis ("project:" ++ p) with
      | nil => exact absurd hcase hk
      | cons a l => rfl
    simp [read_memory, hp, hne]
  · exact ⟨⟨[], 1, 10, 0⟩, by decide, by decide⟩

/-- Witness for C3 at the demo system with a lower bound set. -/
theorem claim_C3_witness :
    badProject "p1" = false ∧ redisLookup sysDemo.redis ("project:" ++ "p1") ≠ [] ∧
    (read_memory ⟨true, true, true⟩ sysDemo "p1" 5 0 (some "0") none =
      .ok { items := (((xrange (redisLookup sysDemo.redis ("project:" ++ "p1"))
                          (match pyOptStr (some "0") with | none => "-" | some a => a)
                          (match pyOptStr (none : Option String) with
                            | none => "+" | some b => b)).drop 0).take 5).map (primaryItem "p1"),
            total := (redisLookup sysDemo.redis ("project:" ++ "p1")).length,
            limit := 5, offset := 0 }
      ∧ ∃ pg, read_memory ⟨true, true, true⟩
            ⟨[("project:p1", [⟨"0-0", "T1", [], []⟩])], [], 1⟩ "p1" 10 0 (some "1") (some "2")
            = .ok pg ∧ pg.total ≠ pg.items.length) :=
  ⟨by decide, by decide,
    claim_C3_primary_total_unfiltered sysDemo "p1" 5 0 (some "0") none (by decide) (by decide)⟩

/-- C4: when the primary stream key is absent, `read_memory` is served
entirely from the secondary store: the items are the rows of the project
within the given time bounds, ordered by timestamp descending with
LIMIT/OFFSET applied at the store level, and `total` is the exact count
of rows matching the same time filters ignoring limit/offset.  A bound
is "given" when it is truthy, i.e. present and non-empty. -/
theorem claim_C4_secondary_read (st : Sys) (p : String) (limit offset : Nat)
    (s t : Option String) (hp : badProject p = false)
    (hk : redisLookup st.redis ("project:" ++ p) = []) :
    ∃ pg, read_memory ⟨true, true, true⟩ st p limit offset s t = .ok pg
      ∧ pg.items = (((sqliteOrderDesc (sqliteReadFilter st.sqliteRows p s t)).drop
            offset).take limit).map (rowItem p)
      ∧ pg.total = (sqliteReadFilter st.sqliteRows p s t).length
      ∧ (∀ r : SqliteRow, r ∈ sqliteReadFilter st.sqliteRows p s t ↔
            r ∈ st.sqliteRows ∧ r.project = p
              ∧ (∀ a, pyOptStr s = some a → strLe a r.timestamp = true)
              ∧ (∀ b, pyOptStr t = some b → strLe r.timestamp b = true))
      ∧ pg.items.Pairwise (fun x y => strLe y.timestamp x.timestamp = true) := by
  refine ⟨sqlitePage st.sqliteRows p s t limit offset, ?_, rfl, rfl, ?_, ?_⟩
  · simp [read_memory, hp, hk]
  · intro r
    simp only [sqliteReadFilter, List.mem_filter, Bool.and_eq_true, beq_iff_eq]
    constructor
    · rintro ⟨hm, ⟨hpr, hs⟩, ht⟩
      refine ⟨hm, hpr, ?_, ?_⟩
      · intro a ha; rw [ha] at hs; exact hs
      · intro b hb; rw [hb] at ht; exact ht
    · rintro ⟨hm, hpr, hs, ht⟩
      refine ⟨hm, ⟨hpr, ?_⟩, ?_⟩
      · cases hcs : pyOptStr s with
        | none => rfl
        | some a => exact hs a hcs
      · cases hct : pyOptStr t with
        | none => rfl
        | some b => exact ht b hct
  · have h1 : (sqliteOrderDesc (sqliteReadFilter st.sqliteRows p s t)).Pairwise rowRel :=
      sqliteOrderDesc_pairwise _
    have h2 : (((sqliteOrderDesc (sqliteReadFilter st.sqliteRows p s t)).drop offset).take
        limit).Pairwise rowRel :=
      h1.sublist ((List.take_sublist _ _).trans (List.drop_sublist _ _))
    exact List.pairwise_map.mpr h2

/-- Witness for C4 at the demo SQLite table (stream key absent for
project `p2`). -/
theorem claim_C4_witness :
    badProject "p2" = false ∧ redisLookup sysDemo.redis ("project:" ++ "p2") = [] ∧
    ∃ pg, read_memory ⟨true, true, true⟩ sysDemo "p2" 10 0 none (some "T9") = .ok pg
      ∧ pg.items = (((sqliteOrderDesc
            (sqliteReadFilter sysDemo.sqliteRows "p2" none (some "T9"))).drop 0).take 10).map
            (rowItem "p2")
      ∧ pg.total = (sqliteReadFilter sysDemo.sqliteRows "p2" none (some "T9")).length
      ∧ (∀ r : SqliteRow, r ∈ sqliteReadFilter sysDemo.sqliteRows "p2" none (some "T9") ↔
            r ∈ sysDemo.sqliteRows ∧ r.project = "p2"
              ∧ (∀ a, pyOptStr none = some a → strLe a r.timestamp = true)
              ∧ (∀ b, pyOptStr (some "T9") = some b → strLe r.timestamp b = true))
      ∧ pg.items.Pairwise (fun x y => strLe y.timestamp x.timestamp = true) :=
  ⟨by decide, by decide,
    claim_C4_secondary_read sysDemo "p2" 10 0 none (some "T9") (by decide) (by decide)⟩

theorem append_singleton_isEmpty_false {α : Type} (l : List α) (a : α) :
    (l ++ [a]).isEmpty = false := by
  cases l <;> rfl

theorem read_primary_full (st : Sys) (p : String) (hp : badProject p = false)
    (hk : (redisLookup st.redis ("project:" ++ p)).isEmpty = false) :
    read_memory ⟨true, true, true⟩ st p (redisLookup st.redis ("project:" ++ p)).length 0
      none none
      = .ok { items := (redisLookup st.redis ("project:" ++ p)).map (primaryItem p),
              total := (redisLookup st.redis ("project:" ++ p)).length,
              limit := (redisLookup st.redis ("project:" ++ p)).length, offset := 0 } := by
  simp [read_memory, hp, hk, pyOptStr, xrange_full]

/-- C2: writing a record with both stores healthy and then reading the
project over the full time window through the primary path returns an
item whose `data` and `metadata` are structurally equal to the written
values (the serialize/deserialize round trip is the identity on the
payload). -/
theorem claim_C2_write_read_roundtrip (st : Sys) (p : String) (data md : JObj) (ts : String)
    (hp : badProject p = false) :
    ∃ resp pg,
      (write_memory ⟨true, true⟩ st p data (some md) ts).result = .ok resp
      ∧ read_memory ⟨true, true, true⟩ (write_memory ⟨true, true⟩ st p data (some md) ts).sys p
          (redisLookup (write_memory ⟨true, true⟩ st p data (some md) ts).sys.redis
            ("project:" ++ p)).length 0 none none = .ok pg
      ∧ ({ id := resp.id, project := p, timestamp := ts, data := data,
           metadata := some md } : MemItem) ∈ pg.items := by
  have hredis : (write_memory ⟨true, true⟩ st p data (some md) ts).sys.redis
      = redisSet st.redis ("project:" ++ p)
          (redisLookup st.redis ("project:" ++ p)
            ++ [⟨streamNextId (redisLookup st.redis ("project:" ++ p)), ts, data, md⟩]) := by
    simp [write_memory, hp]
  have hlook : redisLookup (write_memory ⟨true, true⟩ st p data (some md) ts).sys.redis
      ("project:" ++ p)
      = redisLookup st.redis ("project:" ++ p)
          ++ [⟨streamNextId (redisLookup st.redis ("project:" ++ p)), ts, data, md⟩] := by
    rw [hredis, redisLookup_redisSet]
  have hne : (redisLookup (write_memory ⟨true, true⟩ st p data (some md) ts).sys.redis
      ("project:" ++ p)).isEmpty = false := by
    rw [hlook]
    exact append_singleton_isEmpty_false _ _
  refine ⟨{ id := streamNextId (redisLookup st.redis ("project:" ++ p)), project := p,
            timestamp := ts },
          { items := (redisLookup (write_memory ⟨true, true⟩ st p data (some md) ts).sys.redis
                ("project:" ++ p)).map (primaryItem p),
            total := (redisLookup (write_memory ⟨true, true⟩ st p data (some md) ts).sys.redis
                ("project:" ++ p)).length,
            limit := (redisLookup (write_memory ⟨true, true⟩ st p data (some md) ts).sys.redis
                ("project:" ++ p)).length,
            offset := 0 }, ?_, ?_, ?_⟩
  · simp [write_memory, hp]
  · exact read_primary_full _ p hp hne
  · rw [hlook]
    exact List.mem_map_of_mem (primaryItem p)
      (List.mem_append_right _ (List.mem_singleton_self _))

/-- Witness for C2 on a fresh system. -/
theorem claim_C2_witness :
    badProject "p1" = false ∧
    ∃ resp pg,
      (write_memory ⟨true, true⟩ ⟨[], [], 1⟩ "p1" [("k", .jstr "v")] (some [("m", .jint 7)])
          "T1").result = .ok resp
      ∧ read_memory ⟨true, true, true⟩
          (write_memory ⟨true, true⟩ ⟨[], [], 1⟩ "p1" [("k", .jstr "v")] (some [("m", .jint 7)])
            "T1").sys "p1"
          (redisLookup (write_memory ⟨true, true⟩ ⟨[], [], 1⟩ "p1" [("k", .jstr "v")]
              (some [("m", .jint 7)]) "T1").sys.redis ("project:" ++ "p1")).length 0 none none
          = .ok pg
      ∧ ({ id := resp.id, project := "p1", timestamp := "T1", data := [("k", .jstr "v")],
           metadata := some [("m", .jint 7)] } : MemItem) ∈ pg.items :=
  ⟨by decide,
    claim_C2_write_read_roundtrip ⟨[], [], 1⟩ "p1" [("k", .jstr "v")] [("m", .jint 7)] "T1"
      (by decide)⟩

/-- C9: a write whose metadata is omitted stores the empty mapping in
the primary stream but NULL in the secondary table, so reading the
record back yields `metadata` equal to the empty mapping through the
primary branch but a null `metadata` through the secondary branch. -/
theorem claim_C9_metadata_divergence (st : Sys) (p : String) (data : JObj) (ts : String)
    (hp : badProject p = false) :
    ∃ pg1 pg2,
      read_memory ⟨true, true, true⟩ (write_memory ⟨true, true⟩ st p data none ts).sys p
        (redisLookup (write_memory ⟨true, true⟩ st p data none ts).sys.redis
          ("project:" ++ p)).length 0 none none = .ok pg1
      ∧ ({ id := streamNextId (redisLookup st.redis ("project:" ++ p)), project := p,
           timestamp := ts, data := data, metadata := some [] } : MemItem) ∈ pg1.items
      ∧ read_memory ⟨false, true, true⟩ (write_memory ⟨true, true⟩ st p data none ts).sys p
          (st.sqliteRows.length + 1) 0 none none = .ok pg2
      ∧ ({ id := toString st.sqliteNextId, project := p, timestamp := ts, data := data,
           metadata := none } : MemItem) ∈ pg2.items := by
  have hredis : (write_memory ⟨true, true⟩ st p data none ts).sys.redis
      = redisSet st.redis ("project:" ++ p)
          (redisLookup st.redis ("project:" ++ p)
            ++ [⟨streamNextId (redisLookup st.redis ("project:" ++ p)), ts, data, []⟩]) := by
    simp [write_memory, hp]
  have hsql : (write_memory ⟨true, true⟩ st p data none ts).sys.sqliteRows
      = st.sqliteRows ++ [⟨st.sqliteNextId, p, ts, data, none⟩] := by
    simp [write_memory, hp]
  have hlook : redisLookup (write_memory ⟨true, true⟩ st p data none ts).sys.redis
      ("project:" ++ p)
      = redisLookup st.redis ("project:" ++ p)
          ++ [⟨streamNextId (redisLookup st.redis ("project:" ++ p)), ts, data, []⟩] := by
    rw [hredis, redisLookup_redisSet]
  have hne : (redisLookup (write_memory ⟨true, true⟩ st p data none ts).sys.redis
      ("project:" ++ p)).isEmpty = false := by
    rw [hlook]
    exact append_singleton_isEmpty_false _ _
  refine ⟨{ items := (redisLookup (write_memory ⟨true, true⟩ st p data none ts).sys.redis
                ("project:" ++ p)).map (primaryItem p),
            total := (redisLookup (write_memory ⟨true, true⟩ st p data none ts).sys.redis
                ("project:" ++ p)).length,
            limit := (redisLookup (write_memory ⟨true, true⟩ st p data none ts).sys.redis
                ("project:" ++ p)).length,
            offset := 0 },
          sqlitePage (st.sqliteRows ++ [⟨st.sqliteNextId, p, ts, data, none⟩]) p none none
            (st.sqliteRows.length + 1) 0, ?_, ?_, ?_, ?_⟩
  · exact read_primary_full _ p hp hne
  · rw [hlook]
    exact List.mem_map_of_mem (primaryItem p)
      (List.mem_append_right _ (List.mem_singleton_self _))
  · simp [read_memory, hp, hsql]
  · have hrow : (⟨st.sqliteNextId, p, ts, data, none⟩ : SqliteRow)
        ∈ sqliteReadFilter (st.sqliteRows ++ [⟨st.sqliteNextId, p, ts, data, none⟩]) p
            none none := by
      refine List.mem_filter.mpr ⟨List.mem_append_right _ (List.mem_singleton_self _), ?_⟩
      simp [pyOptStr]
    have hsort : (⟨st.sqliteNextId, p, ts, data, none⟩ : SqliteRow)
        ∈ sqliteOrderDesc (sqliteReadFilter
            (st.sqliteRows ++ [⟨st.sqliteNextId, p, ts, data, none⟩]) p none none) :=
      ((sqliteOrderDesc_perm _).mem_iff).mpr hrow
    have hlen : (sqliteOrderDesc (sqliteReadFilter
        (st.sqliteRows ++ [⟨st.sqliteNextId, p, ts, data, none⟩]) p none none)).length
        ≤ st.sqliteRows.length + 1 := by
      rw [(sqliteOrderDesc_perm _).length_eq]
      calc (sqliteReadFilter (st.sqliteRows ++ [⟨st.sqliteNextId, p, ts, data, none⟩]) p
              none none).length
          ≤ (st.sqliteRows ++ [(⟨st.sqliteNextId, p, ts, data, none⟩ : SqliteRow)]).length := by
            unfold sqliteReadFilter
            exact List.length_filter_le _ _
        _ = st.sqliteRows.length + 1 := by simp
    show _ ∈ (sqlitePage _ _ _ _ _ _).items
    simp only [sqlitePage, sqliteReadSelect, List.drop_zero, List.take_of_length_le hlen]
    exact List.mem_map_of_mem (rowItem p) hsort

/-- Concrete starting system for the C9 witness: no streams, one SQLite
row of another project. -/
def sysC9 : Sys :=
  { redis := [], sqliteRows := [⟨1, "px", "T0", [], none⟩], sqliteNextId := 2 }

/-- Witness for C9 on a system already holding a row of another
project. -/
theorem claim_C9_witness :
    badProject "p1" = false ∧
    ∃ pg1 pg2,
      read_memory ⟨true, true, true⟩
        (write_memory ⟨true, true⟩ sysC9 "p1" [("k", .jstr "v")] none "T5").sys "p1"
        (redisLookup (write_memory ⟨true, true⟩ sysC9 "p1" [("k", .jstr "v")] none
            "T5").sys.redis ("project:" ++ "p1")).length 0 none none = .ok pg1
      ∧ ({ id := streamNextId (redisLookup sysC9.redis ("project:" ++ "p1")), project := "p1",
           timestamp := "T5", data := [("k", .jstr "v")], metadata := some [] } : MemItem)
          ∈ pg1.items
      ∧ read_memory ⟨false, true, true⟩
          (write_memory ⟨true, true⟩ sysC9 "p1" [("k", .jstr "v")] none "T5").sys "p1"
          (sysC9.sqliteRows.length + 1) 0 none none = .ok pg2
      ∧ ({ id := toString sysC9.sqliteNextId, project := "p1", timestamp := "T5",
           data := [("k", .jstr "v")], metadata := none } : MemItem) ∈ pg2.items :=
  ⟨by decide,
    claim_C9_metadata_divergence sysC9 "p1" [("k", .jstr "v")] "T5" (by decide)⟩

theorem filterOk_iff (d m : JObj) (kv : String × JVal) :
    filterOk d m kv = true ↔
      (∃ v, List.lookup kv.1 d = some v ∧ v = kv.2)
        ∨ (List.lookup kv.1 d = none
            ∧ ∃ v, List.lookup kv.1 m = some v ∧ v = kv.2) := by
  unfold filterOk
  cases hd : List.lookup kv.1 d with
  | some v => simp [hd]
  | none =>
      cases m with
      | nil => simp [hd]
      | cons a t =>
          cases hm : List.lookup kv.1 (a :: t) with
          | some v => simp [hd, hm]
          | none => simp [hd, hm]

theorem filters_all_iff (d m : JObj) (filters : Option JObj) :
    (if pyTruthyFilters filters then (filters.getD []).all (filterOk d m) else true) = true
      ↔ ∀ fs, filters = some fs → ∀ kv ∈ fs,
          (∃ v, List.lookup kv.1 d = some v ∧ v = kv.2)
            ∨ (List.lookup kv.1 d = none
                ∧ ∃ v, List.lookup kv.1 m = some v ∧ v = kv.2) := by
  cases filters with
  | none => simp [pyTruthyFilters]
  | some fs =>
      cases fs with
      | nil => simp [pyTruthyFilters]
      | cons kv0 t =>
          simp only [pyTruthyFilters, List.isEmpty_cons, Bool.not_false, if_true,
            List.all_eq_true, Option.getD_some, Option.some.injEq]
          constructor
          · intro h fs2 hfs2 kv hkv
            exact (filterOk_iff d m kv).mp (h kv (hfs2 ▸ hkv))
          · intro h kv hkv
            exact (filterOk_iff d m kv).mpr (h (kv0 :: t) rfl kv hkv)

/-- C5: on the primary path of `query_memory`, a record matches exactly
when the lowercased query string occurs in the lowercased JSON
serialization of its `data` or of its `metadata` and every supplied
filter entry is satisfied by a top-level field of `data` with an equal
value or, when the key is absent from `data`, a top-level field of
`metadata` with an equal value (records whose fields carry the key in
neither mapping are rejected); `total` counts all matching records of
the full log and the offset/limit slice is taken only after filtering. -/
theorem claim_C5_query_primary (st : Sys) (p q : String) (limit offset : Nat)
    (filters : Option JObj) (e : StreamEntry) (hp : badProject p = false) :
    (queryEntryMatch (lowerStr q) filters e = true ↔
        ((strIn (lowerStr q) (lowerStr (dumpsObj e.data)) = true
            ∨ strIn (lowerStr q) (lowerStr (dumpsObj e.metadata)) = true)
          ∧ ∀ fs, filters = some fs → ∀ kv ∈ fs,
              (∃ v, List.lookup kv.1 e.data = some v ∧ v = kv.2)
                ∨ (List.lookup kv.1 e.data = none
                    ∧ ∃ v, List.lookup kv.1 e.metadata = some v ∧ v = kv.2)))
    ∧ ∃ res, query_memory ⟨true, true⟩ st p q limit offset filters = .ok res
        ∧ res.total = ((xrange (redisLookup st.redis ("project:" ++ p)) "-" "+").filter
              (queryEntryMatch (lowerStr q) filters)).length
        ∧ res.items = ((((xrange (redisLookup st.redis ("project:" ++ p)) "-" "+").filter
              (queryEntryMatch (lowerStr q) filters)).drop offset).take limit).map
              (primaryItem p)
        ∧ res.query = q := by
  constructor
  · unfold queryEntryMatch
    cases hs : strIn (lowerStr q) (lowerStr (dumpsObj e.data)) <;>
      cases hm : strIn (lowerStr q) (lowerStr (dumpsObj e.metadata)) <;>
      simp only [hs, hm, Bool.false_or, Bool.true_or, Bool.or_self, if_false, if_true]
    · simp
    · simpa using (filters_all_iff e.data e.metadata filters)
    · simpa using (filters_all_iff e.data e.metadata filters)
    · simpa using (filters_all_iff e.data e.metadata filters)
  · have heq : query_memory ⟨true, true⟩ st p q limit offset filters
        = .ok { items := ((((xrange (redisLookup st.redis ("project:" ++ p)) "-" "+").filter
                  (queryEntryMatch (lowerStr q) filters)).drop offset).take limit).map
                  (primaryItem p),
                total := ((xrange (redisLookup st.redis ("project:" ++ p)) "-" "+").filter
                  (queryEntryMatch (lowerStr q) filters)).length,
                limit := limit, offset := offset, query := q } := by
      simp [query_memory, hp]
    exact ⟨_, heq, rfl, rfl, rfl⟩

/-- Concrete two-entry stream for the C5 witness: the second entry
carries a metadata tag matched by the filter. -/
def sysC5 : Sys :=
  { redis := [("project:p1",
      [⟨"0-0", "T1", [("k", .jstr "v1")], []⟩,
       ⟨"1-0", "T2", [("k", .jstr "v2")], [("tag", .jstr "x")]⟩])],
    sqliteRows := [], sqliteNextId := 1 }

/-- Witness for C5 with an active filter mapping. -/
theorem claim_C5_witness :
    badProject "p1" = false ∧
    ((queryEntryMatch (lowerStr "v") (some [("tag", .jstr "x")])
          ⟨"1-0", "T2", [("k", .jstr "v2")], [("tag", .jstr "x")]⟩ = true ↔
        ((strIn (lowerStr "v")
              (lowerStr (dumpsObj [("k", JVal.jstr "v2")])) = true
            ∨ strIn (lowerStr "v")
                (lowerStr (dumpsObj [("tag", JVal.jstr "x")])) = true)
          ∧ ∀ fs, (some [("tag", JVal.jstr "x")] : Option JObj) = some fs → ∀ kv ∈ fs,
              (∃ v, List.lookup kv.1 [("k", JVal.jstr "v2")] = some v ∧ v = kv.2)
                ∨ (List.lookup kv.1 [("k", JVal.jstr "v2")] = none
                    ∧ ∃ v, List.lookup kv.1 [("tag", JVal.jstr "x")] = some v ∧ v = kv.2)))
    ∧ ∃ res, query_memory ⟨true, true⟩ sysC5 "p1" "v" 10 0 (some [("tag", .jstr "x")])
          = .ok res
        ∧ res.total = ((xrange (redisLookup sysC5.redis ("project:" ++ "p1")) "-" "+").filter
              (queryEntryMatch (lowerStr "v") (some [("tag", .jstr "x")]))).length
        ∧ res.items = ((((xrange (redisLookup sysC5.redis ("project:" ++ "p1")) "-" "+").filter
              (queryEntryMatch (lowerStr "v") (some [("tag", .jstr "x")]))).drop 0).take 10).map
              (primaryItem "p1")
        ∧ res.query = "v") :=
  ⟨by decide,
    claim_C5_query_primary sysC5 "p1" "v" 10 0 (some [("tag", .jstr "x")])
      ⟨"1-0", "T2", [("k", .jstr "v2")], [("tag", .jstr "x")]⟩ (by decide)⟩

end MemoryApi
